import Mathlib

/-!
Verification of the gluesample repository: two AWS Lambda handler stubs
(`release_lock.py`, `s3_trigger.py`), shared utilities (`common.py`), a Glue
batch-job stub (`raw_ingestion_job.py`) and the test suite
(`test_pipeline.py`), shallowly embedded in Lean 4.

Python runtime values are modelled by `PyVal`; the standard-library
functions the code calls (`json.dumps`, `str`, `os.environ.get`) are
modelled at the fidelity the repository exercises. Fallible calls
(`json.dumps` raising `TypeError` on non-serializable values) return
`Option`; `Option.none` models an unhandled exception propagating out of
the Python function.
-/

/-- model of a Python runtime value, as used by this repository: `None`,
booleans, integers, strings, lists, dicts with string keys (all dict
literals in the repository have string keys), and `obj`, an opaque
non-JSON-serializable object (e.g. a `set` or a plain `object()`),
identified by a tag. -/
inductive PyVal where
  | none
  | bool (b : Bool)
  | int (n : Int)
  | str (s : String)
  | list (xs : List PyVal)
  | dict (kvs : List (String × PyVal))
  | obj (tag : String)

/-- hexadecimal digit for code-point escapes, as `json.dumps` and `repr`
produce them (lowercase). -/
def hexDigit (n : Nat) : Char :=
  if n < 10 then Char.ofNat (48 + n) else Char.ofNat (87 + n)

/-- four-digit lowercase hexadecimal form of a BMP code point. -/
def hex4 (n : Nat) : String :=
  String.mk [hexDigit (n / 4096 % 16), hexDigit (n / 256 % 16),
             hexDigit (n / 16 % 16), hexDigit (n % 16)]

/-- escape of one character inside a JSON string literal, following
`json.dumps` with its default `ensure_ascii=True`: printable ASCII other
than `"` and `\` is kept, the short escapes are used for the usual control
characters, every other character becomes `\uXXXX` (surrogate pairs for
code points beyond the BMP). -/
def jsonEscapeChar (c : Char) : String :=
  if c = '"' then "\\\""
  else if c = '\\' then "\\\\"
  else if c = '\n' then "\\n"
  else if c = '\t' then "\\t"
  else if c = '\r' then "\\r"
  else if c.toNat = 8 then "\\b"
  else if c.toNat = 12 then "\\f"
  else if 32 ≤ c.toNat ∧ c.toNat ≤ 126 then String.mk [c]
  else if c.toNat < 65536 then "\\u" ++ hex4 c.toNat
  else
    "\\u" ++ hex4 (55296 + (c.toNat - 65536) / 1024) ++
    "\\u" ++ hex4 (56320 + (c.toNat - 65536) % 1024)

/-- a JSON string literal: `json.dumps` applied to a Python `str`. -/
def jsonQuote (s : String) : String :=
  "\"" ++ String.join (s.data.map jsonEscapeChar) ++ "\""

mutual

/-- model of `json.dumps(v)` with default arguments (separators `", "` and
`": "`, `ensure_ascii=True`): `Option.none` models the `TypeError` raised
on a value that is not JSON-serializable. -/
def dumps : PyVal → Option String
  | .none => some "null"
  | .bool b => some (if b then "true" else "false")
  | .int n => some (toString n)
  | .str s => some (jsonQuote s)
  | .list xs =>
      match dumpsElems xs with
      | some parts => some ("[" ++ String.intercalate ", " parts ++ "]")
      | Option.none => Option.none
  | .dict kvs =>
      match dumpsEntries kvs with
      | some parts => some ("\x7b" ++ String.intercalate ", " parts ++ "\x7d")
      | Option.none => Option.none
  | .obj _ => Option.none

/-- serialization of the elements of a Python list inside `json.dumps`. -/
def dumpsElems : List PyVal → Option (List String)
  | [] => some []
  | v :: vs =>
      match dumps v, dumpsElems vs with
      | some s, some rest => some (s :: rest)
      | _, _ => Option.none

/-- serialization of the entries of a Python dict inside `json.dumps`. -/
def dumpsEntries : List (String × PyVal) → Option (List String)
  | [] => some []
  | (k, v) :: kvs =>
      match dumps v, dumpsEntries kvs with
      | some s, some rest => some ((jsonQuote k ++ ": " ++ s) :: rest)
      | _, _ => Option.none

end

example : dumps (.dict [("a", .int 1), ("b", .bool true)]) =
    some "\x7b\"a\": 1, \"b\": true\x7d" := by rfl

example : dumps (.dict []) = some "\x7b\x7d" := by rfl

example : dumps (.dict [("k", .obj "set")]) = Option.none := by rfl

/-- the single-quote character, kept out of literals as `Char.ofNat 39`. -/
def squote : Char := Char.ofNat 39

/-- the double-quote character. -/
def dquote : Char := Char.ofNat 34

/-- escape of one character inside a Python string `repr`, for the chosen
quote character: the quote and the backslash are escaped, the usual short
escapes are used, other printable ASCII is kept, and non-printable
characters become `\xXX`/`\uXXXX` escapes. Modelled from CPython for the
ASCII range, which is all the repository ever stringifies. -/
def reprEscapeChar (quote c : Char) : String :=
  if c = quote then "\\" ++ quote.toString
  else if c = '\\' then "\\\\"
  else if c = '\n' then "\\n"
  else if c = '\t' then "\\t"
  else if c = '\r' then "\\r"
  else if 32 ≤ c.toNat ∧ c.toNat ≤ 126 then c.toString
  else if c.toNat < 256 then
    "\\x" ++ String.mk [hexDigit (c.toNat / 16), hexDigit (c.toNat % 16)]
  else "\\u" ++ hex4 c.toNat

/-- Python `repr` of a `str`: single quotes are preferred, double quotes
are used when the string contains a single quote but no double quote. -/
def pyReprStr (s : String) : String :=
  if s.data.contains squote ∧ ¬ s.data.contains dquote then
    dquote.toString ++ String.join (s.data.map (reprEscapeChar dquote)) ++
      dquote.toString
  else
    squote.toString ++ String.join (s.data.map (reprEscapeChar squote)) ++
      squote.toString

mutual

/-- Python `repr` of a value: `None`/`True`/`False`, decimal integers,
quoted strings, bracketed lists, braced dicts with `repr`-quoted keys. For
an opaque object the id-dependent address CPython prints is elided and the
tag stands in for it; no claim depends on that text. -/
def pyRepr : PyVal → String
  | .none => "None"
  | .bool b => if b then "True" else "False"
  | .int n => toString n
  | .str s => pyReprStr s
  | .list xs => "[" ++ String.intercalate ", " (pyReprElems xs) ++ "]"
  | .dict kvs => "\x7b" ++ String.intercalate ", " (pyReprEntries kvs) ++ "\x7d"
  | .obj tag => "<" ++ tag ++ " object>"

/-- representations of the elements of a list inside `pyRepr`. -/
def pyReprElems : List PyVal → List String
  | [] => []
  | v :: vs => pyRepr v :: pyReprElems vs

/-- representations of the entries of a dict inside `pyRepr`. -/
def pyReprEntries : List (String × PyVal) → List String
  | [] => []
  | (k, v) :: kvs => (pyReprStr k ++ ": " ++ pyRepr v) :: pyReprEntries kvs

end

/-- Python `str(v)`: a string is returned unchanged, every other value is
rendered by `repr` (CPython defers to `repr` for all types appearing
here). -/
def pyStr : PyVal → String
  | .str s => s
  | v => pyRepr v

/-- model of Python `isinstance(body, str)`. -/
def isinstance_str : PyVal → Bool
  | .str _ => true
  | _ => false

/-- embedding of `create_lambda_response` (src/src/utils/common.py,
lines 5-10): builds the two-key dict
`{'statusCode': status_code, 'body': body if isinstance(body, str) else str(body)}`.
The Python function is a single dict construction with no fallible call,
so the embedding is total: totality models "never raises". -/
def create_lambda_response (status_code body : PyVal) : PyVal :=
  .dict [("statusCode", status_code),
         ("body", if isinstance_str body then body else .str (pyStr body))]

/-- model of `os.environ.get(name, default)` over an explicit environment
(a finite list of name-value bindings): the bound value as a Python
string when present, the default otherwise. -/
def os_environ_get (env : List (String × String)) (name : String)
    (d : PyVal) : PyVal :=
  match env.lookup name with
  | some v => .str v
  | Option.none => d

/-- embedding of `get_environment_variable` (src/src/utils/common.py,
lines 12-15): `os.environ.get(name, default)` (the Python default for the
`default` parameter is `None`; callers here always pass it explicitly).
The process environment is threaded as explicit state; `os.environ.get`
only reads it, so the returned state is the input state. -/
def get_environment_variable (env : List (String × String)) (name : String)
    (d : PyVal) : PyVal × List (String × String) :=
  (os_environ_get env name d, env)

/-- embedding of `hello_world` (src/src/utils/common.py, lines 17-19). -/
def hello_world : String := "Hello World from Common Utils!"

/-- the fixed dict that `release_lock.lambda_handler` serializes into its
response body (src/src/lambda/release_lock.py, lines 17-20). -/
def release_lock_body : PyVal :=
  .dict [("message", .str "Hello World from Release Lock Lambda"),
         ("lock_released", .bool true)]

/-- the JSON text `json.dumps` produces for `release_lock_body`. -/
def release_lock_body_text : String :=
  "\x7b\"message\": \"Hello World from Release Lock Lambda\", \"lock_released\": true\x7d"

/-- embedding of `lambda_handler` (src/src/lambda/release_lock.py,
lines 7-21): the second `print` serializes the event with `json.dumps`,
so a non-serializable event raises `TypeError` there, before the return
dict is built; `Option.none` models that unhandled exception escaping the
handler. Otherwise the handler returns
`{'statusCode': 200, 'body': json.dumps({...fixed dict...})}`. -/
def release_lock_lambda_handler (event _context : PyVal) : Option PyVal :=
  match dumps event with
  | Option.none => Option.none
  | some _ =>
      match dumps release_lock_body with
      | Option.none => Option.none
      | some bodyText =>
          some (.dict [("statusCode", .int 200), ("body", .str bodyText)])

/-- the fixed dict that `s3_trigger.lambda_handler` serializes into its
response body (src/src/lambda/s3_trigger.py, lines 17-20). -/
def s3_trigger_body : PyVal :=
  .dict [("message", .str "Hello World from S3 Trigger Lambda"),
         ("event_processed", .bool true)]

/-- the JSON text `json.dumps` produces for `s3_trigger_body`. -/
def s3_trigger_body_text : String :=
  "\x7b\"message\": \"Hello World from S3 Trigger Lambda\", \"event_processed\": true\x7d"

/-- embedding of `lambda_handler` (src/src/lambda/s3_trigger.py,
lines 7-21): same shape as the release-lock handler — log the serialized
event (raising on a non-serializable one), then return the fixed success
envelope. The event is never inspected beyond serializing it for the log
line. -/
def s3_trigger_lambda_handler (event _context : PyVal) : Option PyVal :=
  match dumps event with
  | Option.none => Option.none
  | some _ =>
      match dumps s3_trigger_body with
      | Option.none => Option.none
      | some bodyText =>
          some (.dict [("statusCode", .int 200), ("body", .str bodyText)])

/-- observable outcome of one run of the Glue batch-job stub: the lines it
wrote to standard output, and whether it signalled successful completion
(`job.commit()`) to the orchestrator. -/
structure GlueJobRun where
  stdout : List String
  committed : Bool

/-- embedding of the module body of src/src/glue/raw_ingestion_job.py
(lines 12-25), given the job name the external `getResolvedOptions` call
resolved from the orchestrator-supplied arguments (the Spark/Glue
initialization calls are external platform code, opaque here): the module
prints the greeting line and the job-name line, then unconditionally
calls `job.commit()`. -/
def raw_ingestion_job (jobName : String) : GlueJobRun :=
  { stdout := ["Hello World - Raw Ingestion Glue Job", "Job Name: " ++ jobName]
    committed := true }

/-- keys of a Python dict, in insertion order; `Option.none` on a
non-dict. -/
def dictKeys : PyVal → Option (List String)
  | .dict kvs => some (kvs.map Prod.fst)
  | _ => Option.none

/-- lookup of a key in a Python dict; `Option.none` on a non-dict or a
missing key. -/
def dictGet (v : PyVal) (k : String) : Option PyVal :=
  match v with
  | .dict kvs => kvs.lookup k
  | _ => Option.none

example : dumps release_lock_body = some release_lock_body_text := by rfl

example : dumps s3_trigger_body = some s3_trigger_body_text := by rfl

example : pyStr (PyVal.dict [("message", PyVal.str "success")]) =
    String.mk [Char.ofNat 123, Char.ofNat 39] ++ "message" ++
    String.mk [Char.ofNat 39, Char.ofNat 58, Char.ofNat 32, Char.ofNat 39] ++
    "success" ++ String.mk [Char.ofNat 39, Char.ofNat 125] := by rfl

/-- helper: when the event serializes, the release-lock handler returns
the fixed envelope. -/
theorem release_lock_handler_eq_of_dumps (event context : PyVal) (s : String)
    (he : dumps event = some s) :
    release_lock_lambda_handler event context =
      some (PyVal.dict [("statusCode", PyVal.int 200),
                        ("body", PyVal.str release_lock_body_text)]) := by
  unfold release_lock_lambda_handler
  rw [he]
  rfl

/-- helper: when the event does not serialize, the release-lock handler
propagates the exception. -/
theorem release_lock_handler_none_of_dumps (event context : PyVal)
    (he : dumps event = Option.none) :
    release_lock_lambda_handler event context = Option.none := by
  unfold release_lock_lambda_handler
  rw [he]

/-- helper: when the event serializes, the S3-trigger handler returns the
fixed envelope. -/
theorem s3_trigger_handler_eq_of_dumps (event context : PyVal) (s : String)
    (he : dumps event = some s) :
    s3_trigger_lambda_handler event context =
      some (PyVal.dict [("statusCode", PyVal.int 200),
                        ("body", PyVal.str s3_trigger_body_text)]) := by
  unfold s3_trigger_lambda_handler
  rw [he]
  rfl

/-- helper: when the event does not serialize, the S3-trigger handler
propagates the exception. -/
theorem s3_trigger_handler_none_of_dumps (event context : PyVal)
    (he : dumps event = Option.none) :
    s3_trigger_lambda_handler event context = Option.none := by
  unfold s3_trigger_lambda_handler
  rw [he]

/-- C1 (counterexample): the claim quantifies over every event payload,
but on a non-JSON-serializable event — here an opaque `object()` — the
release-lock handler raises `TypeError` from `json.dumps` and returns no
envelope at all. -/
theorem release_lock_envelope_counterexample :
    release_lock_lambda_handler (PyVal.obj "object") PyVal.none =
      Option.none := rfl

/-- C1 (amended): for every JSON-serializable event payload and every
context value, `release_lock.lambda_handler` returns the envelope with
statusCode 200 and body the JSON text of
`{"message": "Hello World from Release Lock Lambda", "lock_released": true}`;
the `lock_released` flag is true regardless of input. -/
theorem release_lock_envelope_of_serializable (event context : PyVal)
    (h : (dumps event).isSome = true) :
    release_lock_lambda_handler event context =
      some (PyVal.dict [("statusCode", PyVal.int 200),
                        ("body", PyVal.str release_lock_body_text)]) := by
  cases he : dumps event with
  | none => rw [he] at h; exact absurd h (by simp)
  | some s => exact release_lock_handler_eq_of_dumps event context s he

/-- C1 (witness): the amended theorem at the spec scenario, event `{}`
with context `None`. -/
theorem release_lock_envelope_witness :
    (dumps (PyVal.dict [])).isSome = true ∧
    release_lock_lambda_handler (PyVal.dict []) PyVal.none =
      some (PyVal.dict [("statusCode", PyVal.int 200),
                        ("body", PyVal.str release_lock_body_text)]) :=
  ⟨rfl, release_lock_envelope_of_serializable (PyVal.dict []) PyVal.none rfl⟩

/-- C2 (counterexample): the claim quantifies over every event payload,
but on a non-JSON-serializable event the S3-trigger handler raises
`TypeError` from `json.dumps` and returns no envelope at all. -/
theorem s3_trigger_envelope_counterexample :
    s3_trigger_lambda_handler (PyVal.obj "object") PyVal.none =
      Option.none := rfl

/-- C2 (amended): for every JSON-serializable event payload and every
context value, `s3_trigger.lambda_handler` returns the envelope with
statusCode 200 and body the JSON text of
`{"message": "Hello World from S3 Trigger Lambda", "event_processed": true}`,
without inspecting the event beyond serializing it for the log line. -/
theorem s3_trigger_envelope_of_serializable (event context : PyVal)
    (h : (dumps event).isSome = true) :
    s3_trigger_lambda_handler event context =
      some (PyVal.dict [("statusCode", PyVal.int 200),
                        ("body", PyVal.str s3_trigger_body_text)]) := by
  cases he : dumps event with
  | none => rw [he] at h; exact absurd h (by simp)
  | some s => exact s3_trigger_handler_eq_of_dumps event context s he

/-- C2 (witness): the amended theorem at the spec scenario, event
`{"bucket": "x", "key": "y"}` with context `None`. -/
theorem s3_trigger_envelope_witness :
    (dumps (PyVal.dict [("bucket", PyVal.str "x"),
                        ("key", PyVal.str "y")])).isSome = true ∧
    s3_trigger_lambda_handler
        (PyVal.dict [("bucket", PyVal.str "x"), ("key", PyVal.str "y")])
        PyVal.none =
      some (PyVal.dict [("statusCode", PyVal.int 200),
                        ("body", PyVal.str s3_trigger_body_text)]) :=
  ⟨rfl, s3_trigger_envelope_of_serializable
    (PyVal.dict [("bucket", PyVal.str "x"), ("key", PyVal.str "y")])
    PyVal.none rfl⟩

/-- C3: for every status-code value and every body value,
`create_lambda_response` returns a dict with exactly the two keys
`statusCode` and `body`, in that order; the embedding is a total function
because the Python body is a single infallible dict construction, which
models "never raises". -/
theorem create_lambda_response_total_two_fields (status_code body : PyVal) :
    dictKeys (create_lambda_response status_code body) =
      some ["statusCode", "body"] := rfl

/-- C4: if the event argument is not JSON-serializable, both handler
stubs raise an unhandled exception from serializing the event for the log
line, before any return value is constructed, so neither returns a
response envelope. -/
theorem handlers_raise_on_unserializable_event (event context : PyVal)
    (he : dumps event = Option.none) :
    release_lock_lambda_handler event context = Option.none ∧
    s3_trigger_lambda_handler event context = Option.none :=
  ⟨release_lock_handler_none_of_dumps event context he,
   s3_trigger_handler_none_of_dumps event context he⟩

/-- C4 (witness): the theorem at the concrete non-serializable event
`object()` with context `None`. -/
theorem handlers_raise_witness :
    dumps (PyVal.obj "object") = Option.none ∧
    (release_lock_lambda_handler (PyVal.obj "object") PyVal.none =
        Option.none ∧
      s3_trigger_lambda_handler (PyVal.obj "object") PyVal.none =
        Option.none) :=
  ⟨rfl, handlers_raise_on_unserializable_event (PyVal.obj "object")
    PyVal.none rfl⟩

/-- C5: for every status_code and body, the envelope's statusCode field
is status_code, and its body field is body itself when body is a Python
string and the `str(...)` stringification of body otherwise. -/
theorem create_lambda_response_fields (status_code body : PyVal) :
    dictGet (create_lambda_response status_code body) "statusCode" =
      some status_code ∧
    (isinstance_str body = true →
      dictGet (create_lambda_response status_code body) "body" = some body) ∧
    (isinstance_str body = false →
      dictGet (create_lambda_response status_code body) "body" =
        some (PyVal.str (pyStr body))) := by
  refine ⟨rfl, ?_, ?_⟩ <;> intro h <;>
    simp [create_lambda_response, dictGet, List.lookup, h]

/-- C5 (witness): the theorem at the test suite's call
`create_lambda_response(200, {"message": "success"})`: statusCode is 200
and the body field holds the stringification of the dict. -/
theorem create_lambda_response_fields_witness :
    dictGet (create_lambda_response (PyVal.int 200)
        (PyVal.dict [("message", PyVal.str "success")])) "statusCode" =
      some (PyVal.int 200) ∧
    isinstance_str (PyVal.dict [("message", PyVal.str "success")]) = false ∧
    dictGet (create_lambda_response (PyVal.int 200)
        (PyVal.dict [("message", PyVal.str "success")])) "body" =
      some (PyVal.str (pyStr (PyVal.dict [("message", PyVal.str "success")]))) :=
  ⟨(create_lambda_response_fields (PyVal.int 200)
      (PyVal.dict [("message", PyVal.str "success")])).1,
   rfl,
   (create_lambda_response_fields (PyVal.int 200)
      (PyVal.dict [("message", PyVal.str "success")])).2.2 rfl⟩

/-- C6: for every environment, name and default,
`get_environment_variable` returns the bound value when the name is set,
the default when it is unset, and in both cases leaves the environment
unchanged. -/
theorem get_environment_variable_lookup (env : List (String × String))
    (name : String) (d : PyVal) :
    (∀ v, env.lookup name = some v →
      get_environment_variable env name d = (PyVal.str v, env)) ∧
    (env.lookup name = Option.none →
      get_environment_variable env name d = (d, env)) := by
  constructor
  · intro v hv
    simp [get_environment_variable, os_environ_get, hv]
  · intro hv
    simp [get_environment_variable, os_environ_get, hv]

/-- C6 (witness): the theorem at an environment not binding
`UNSET_NAME_X`, with default `"fallback"`: the default comes back and the
environment is unchanged. -/
theorem get_environment_variable_lookup_witness :
    ([("HOME", "/root")] : List (String × String)).lookup "UNSET_NAME_X" =
      Option.none ∧
    get_environment_variable [("HOME", "/root")] "UNSET_NAME_X"
        (PyVal.str "fallback") =
      (PyVal.str "fallback", [("HOME", "/root")]) :=
  ⟨rfl, (get_environment_variable_lookup [("HOME", "/root")] "UNSET_NAME_X"
    (PyVal.str "fallback")).2 rfl⟩

/-- C7: every code path returns success — whenever either handler stub
returns an envelope, that envelope's statusCode is 200, and the batch-job
stub always signals successful completion; the utility functions are
total functions into plain values, so no operation returns a designed
error value of any other kind. -/
theorem every_code_path_returns_success (event context r : PyVal)
    (jobName : String) :
    (release_lock_lambda_handler event context = some r →
      dictGet r "statusCode" = some (PyVal.int 200)) ∧
    (s3_trigger_lambda_handler event context = some r →
      dictGet r "statusCode" = some (PyVal.int 200)) ∧
    (raw_ingestion_job jobName).committed = true := by
  refine ⟨?_, ?_, rfl⟩
  · intro h
    cases he : dumps event with
    | none =>
        rw [release_lock_handler_none_of_dumps event context he] at h
        exact Option.noConfusion h
    | some s =>
        rw [release_lock_handler_eq_of_dumps event context s he] at h
        injection h with h2
        rw [← h2]
        rfl
  · intro h
    cases he : dumps event with
    | none =>
        rw [s3_trigger_handler_none_of_dumps event context he] at h
        exact Option.noConfusion h
    | some s =>
        rw [s3_trigger_handler_eq_of_dumps event context s he] at h
        injection h with h2
        rw [← h2]
        rfl

/-- C7 (witness): the theorem at event `{}`, context `None` and the
envelope the release-lock handler actually returns there. -/
theorem every_code_path_returns_success_witness :
    release_lock_lambda_handler (PyVal.dict []) PyVal.none =
      some (PyVal.dict [("statusCode", PyVal.int 200),
                        ("body", PyVal.str release_lock_body_text)]) ∧
    dictGet (PyVal.dict [("statusCode", PyVal.int 200),
                         ("body", PyVal.str release_lock_body_text)])
        "statusCode" = some (PyVal.int 200) ∧
    (raw_ingestion_job "test_job").committed = true :=
  ⟨rfl,
   (every_code_path_returns_success (PyVal.dict []) PyVal.none
      (PyVal.dict [("statusCode", PyVal.int 200),
                   ("body", PyVal.str release_lock_body_text)])
      "test_job").1 rfl,
   (every_code_path_returns_success (PyVal.dict []) PyVal.none
      (PyVal.dict []) "test_job").2.2⟩

/-- C8: whatever envelope a handler stub returns equals the result of the
shared utility `create_lambda_response` applied to 200 and the fixed JSON
body text, so the handlers are extensionally equivalent to the shared
envelope constructor on every input on which they return. -/
theorem handlers_refine_create_lambda_response (event context r : PyVal) :
    (release_lock_lambda_handler event context = some r →
      r = create_lambda_response (PyVal.int 200)
            (PyVal.str release_lock_body_text)) ∧
    (s3_trigger_lambda_handler event context = some r →
      r = create_lambda_response (PyVal.int 200)
            (PyVal.str s3_trigger_body_text)) := by
  constructor
  · intro h
    cases he : dumps event with
    | none =>
        rw [release_lock_handler_none_of_dumps event context he] at h
        exact Option.noConfusion h
    | some s =>
        rw [release_lock_handler_eq_of_dumps event context s he] at h
        injection h with h2
        rw [← h2]
        rfl
  · intro h
    cases he : dumps event with
    | none =>
        rw [s3_trigger_handler_none_of_dumps event context he] at h
        exact Option.noConfusion h
    | some s =>
        rw [s3_trigger_handler_eq_of_dumps event context s he] at h
        injection h with h2
        rw [← h2]
        rfl

/-- C8 (witness): the theorem at event `{}` and context `None`: the
envelope the release-lock handler returns there is exactly
`create_lambda_response(200, <fixed body text>)`. -/
theorem handlers_refine_witness :
    release_lock_lambda_handler (PyVal.dict []) PyVal.none =
      some (PyVal.dict [("statusCode", PyVal.int 200),
                        ("body", PyVal.str release_lock_body_text)]) ∧
    PyVal.dict [("statusCode", PyVal.int 200),
                ("body", PyVal.str release_lock_body_text)] =
      create_lambda_response (PyVal.int 200)
        (PyVal.str release_lock_body_text) :=
  ⟨rfl,
   (handlers_refine_create_lambda_response (PyVal.dict []) PyVal.none
      (PyVal.dict [("statusCode", PyVal.int 200),
                   ("body", PyVal.str release_lock_body_text)])).1 rfl⟩

/-- C9: for every provided job-name argument, the batch-job stub writes
exactly two lines to standard output — the greeting, then the line
containing the job name — and then unconditionally signals successful
completion; the embedding is total, so there is no failure path. -/
theorem raw_ingestion_job_two_lines_and_commit (jobName : String) :
    (raw_ingestion_job jobName).stdout =
      ["Hello World - Raw Ingestion Glue Job", "Job Name: " ++ jobName] ∧
    (raw_ingestion_job jobName).committed = true :=
  ⟨rfl, rfl⟩

/-- C10: `hello_world()` always returns the literal string
"Hello World from Common Utils!"; it takes no arguments and its embedding
is a constant, reflecting that the Python body is a single return of a
string literal with no side effects. -/
theorem hello_world_constant :
    hello_world = "Hello World from Common Utils!" := rfl
